import Mathlib

/-!
Shallow embedding of `src/backend/main.py` (ResearchMateBackend): a small
REST backend over a SQLite database with three tables (`users`, `pdfs`,
`summaries`) and a flat `storage/` blob directory for uploaded PDF binaries.
Each HTTP route handler is modelled as a pure function from its request data
and the persistent state (`Store`) to an HTTP-level response paired with the
state after the request.  Database ids are modelled as naturals; fresh
primary keys follow the SQLite rowid rule (one more than the current maximum).
The SQLite UNIQUE constraint on `users.email` is modelled at the points where
the code commits a write that can violate it: caught (rolled back, HTTP 400)
in `create_user`, uncaught (server error) in `update_user`.
-/

set_option autoImplicit false

namespace ResearchMate

/-- Row of the `users` table (main.py lines 25-30): integer primary key `id`,
`name`, `email` (UNIQUE), and a clear-text `password`. -/
structure UserRow where
  id : Nat
  name : String
  email : String
  password : String
deriving DecidableEq

/-- Row of the `pdfs` table (main.py lines 32-39): integer primary key `id`,
unvalidated `user_id`, the client-supplied `fileName`, and the on-disk
`storage_path`. -/
structure PDFRow where
  id : Nat
  user_id : Nat
  fileName : String
  storage_path : String
deriving DecidableEq

/-- Row of the `summaries` table (main.py lines 41-48).  The creation
timestamp is modelled as a natural. -/
structure SummaryRow where
  id : Nat
  pdf_id : Nat
  summarize_text : String
  created_at : Nat
deriving DecidableEq

/-- The persistent state of the backend: the three database tables plus the
`storage/` blob directory, modelled as an association list from file path to
file bytes (at most one entry per path, the first entry wins). -/
structure Store where
  users : List UserRow
  pdfs : List PDFRow
  summaries : List SummaryRow
  blobs : List (String × List Nat)
deriving DecidableEq

/-- Request contract `UserCreate` (main.py lines 65-68). -/
structure UserCreate where
  name : String
  email : String
  password : String
deriving DecidableEq

/-- Response contract `UserResponse` (main.py lines 70-75): serializes only
`id`, `name` and `email` — never the password. -/
structure UserResponse where
  id : Nat
  name : String
  email : String
deriving DecidableEq

/-- Request contract `UserUpdate` (main.py lines 77-80): all three fields
optional, `None` meaning "leave unchanged". -/
structure UserUpdate where
  name : Option String
  email : Option String
  password : Option String
deriving DecidableEq

/-- Response contract `PDFResponse` (main.py lines 141-145). -/
structure PDFResponse where
  id : Nat
  fileName : String
deriving DecidableEq

/-- Request contract `SummaryRequest` (main.py lines 191-193).  Note that its
fields are `pdf_id` and `storage_id`; it has no field named `summary`. -/
structure SummaryRequest where
  pdf_id : Nat
  storage_id : String
deriving DecidableEq

/-- Response contract `SummaryResponse` (main.py lines 195-197). -/
structure SummaryResponse where
  pdf_id : Nat
  summary : String
deriving DecidableEq

/-- An uploaded multipart file: the client-supplied filename and the binary
content (bytes). -/
structure UploadFile where
  filename : String
  content : List Nat
deriving DecidableEq

/-- The body streamed back by FastAPI `FileResponse` (main.py lines 184-188):
file bytes, media type, and the download filename. -/
structure FileDownload where
  content : List Nat
  media_type : String
  filename : String
deriving DecidableEq

/-- Outcome of a handler at the HTTP boundary: a successful value, an
`HTTPException` raised by the handler (`clientError status detail`), or an
exception that escapes the handler uncaught and surfaces as an unclassified
server error (`serverError`). -/
inductive Resp (α : Type) where
  | ok : α → Resp α
  | clientError : Nat → String → Resp α
  | serverError : String → Resp α
deriving DecidableEq

/-- Serialization of a `User` row through the `UserResponse` contract
(`response_model=UserResponse`): the password field is dropped. -/
def UserRow.toResponse (u : UserRow) : UserResponse :=
  ⟨u.id, u.name, u.email⟩

/-- Serialization of a `PDF` row through the `PDFResponse` contract. -/
def PDFRow.toResponse (p : PDFRow) : PDFResponse :=
  ⟨p.id, p.fileName⟩

/-- SQLite rowid assignment for an INSERT into `users` with no explicit id:
one more than the largest existing id. -/
def nextUserId (users : List UserRow) : Nat :=
  (users.map (fun u => u.id)).foldr max 0 + 1

/-- SQLite rowid assignment for an INSERT into `pdfs`. -/
def nextPdfId (pdfs : List PDFRow) : Nat :=
  (pdfs.map (fun p => p.id)).foldr max 0 + 1

/-- `POST /users` — `create_user` (main.py lines 85-100).  Inserts the new
row and commits; if the UNIQUE constraint on `email` fires, the session is
rolled back and an `HTTPException(400, "Email already registered")` is
raised, leaving the database unchanged. -/
def create_user (user : UserCreate) (db : Store) : Resp UserResponse × Store :=
  if db.users.any (fun u => u.email == user.email) then
    (Resp.clientError 400 "Email already registered", db)
  else
    let row : UserRow := ⟨nextUserId db.users, user.name, user.email, user.password⟩
    (Resp.ok row.toResponse, { db with users := db.users ++ [row] })

/-- `GET /users` — `read_users` (main.py lines 103-106).  Query parameters
`skip` and `limit` default to 0 and 10 when omitted (`none`); the query is
`offset(skip).limit(limit)`. -/
def read_users (skip limit : Option Nat) (db : Store) :
    Resp (List UserResponse) × Store :=
  (Resp.ok (((db.users.drop (skip.getD 0)).take (limit.getD 10)).map
    UserRow.toResponse), db)

/-- `GET /users/{user_id}` — `read_user` (main.py lines 109-115): first row
with the given id, 404 if none. -/
def read_user (user_id : Nat) (db : Store) : Resp UserResponse × Store :=
  match db.users.find? (fun u => u.id == user_id) with
  | none => (Resp.clientError 404 "User not Found", db)
  | some u => (Resp.ok u.toResponse, db)

/-- The field merge performed by `update_user` (main.py lines 123-125): each
field is taken from the request when present, otherwise kept. -/
def applyUpdate (u : UserRow) (req : UserUpdate) : UserRow :=
  { u with
    name := req.name.getD u.name
    email := req.email.getD u.email
    password := req.password.getD u.password }

/-- Replace the first row whose id is `i` (the ORM object returned by
`.filter(User.id == user_id).first()`) by `u'`. -/
def replaceById (users : List UserRow) (i : Nat) (u' : UserRow) : List UserRow :=
  match users with
  | [] => []
  | v :: rest => if v.id == i then u' :: rest else v :: replaceById rest i u'

/-- `PUT /users/{user_id}` — `update_user` (main.py lines 118-128).  404 when
the id is absent; otherwise the three fields are merged and the session is
committed.  If the merged email collides with another row's email, the UNIQUE
constraint raises an uncaught `IntegrityError` at `db.commit()`: the
transaction is discarded when the session closes (database unchanged) and the
exception surfaces as a server error. -/
def update_user (user_id : Nat) (req : UserUpdate) (db : Store) :
    Resp UserResponse × Store :=
  match db.users.find? (fun u => u.id == user_id) with
  | none => (Resp.clientError 404 "User not Found", db)
  | some u =>
    let u' := applyUpdate u req
    if db.users.any (fun v => v.id != u.id && v.email == u'.email) then
      (Resp.serverError "IntegrityError: UNIQUE constraint failed: users.email", db)
    else
      (Resp.ok u'.toResponse, { db with users := replaceById db.users user_id u' })

/-- `DELETE /users/{user_id}` — `delete_user` (main.py lines 131-138).  The
handler also declares a `UserUpdate` request body `user` that it never reads.
404 when the id is absent; otherwise the row is deleted and its former
representation returned. -/
def delete_user (user_id : Nat) (req : UserUpdate) (db : Store) :
    Resp UserResponse × Store :=
  match db.users.find? (fun u => u.id == user_id) with
  | none => (Resp.clientError 404 "User not Found", db)
  | some u =>
    (Resp.ok u.toResponse,
      { db with users := db.users.eraseP (fun v => v.id == user_id) })

/-- Writing `content` to `path` in the blob directory: truncates any existing
file at that path and stores the new bytes. -/
def writeBlob (blobs : List (String × List Nat)) (path : String)
    (content : List Nat) : List (String × List Nat) :=
  (path, content) :: blobs.filter (fun b => b.1 != path)

/-- Reading the file at `path` from the blob directory; `none` when no such
file exists on disk. -/
def readBlob (blobs : List (String × List Nat)) (path : String) :
    Option (List Nat) :=
  (blobs.find? (fun b => b.1 == path)).map (fun b => b.2)

/-- `POST /pdf/upload` — `create_pdf` (main.py lines 148-161).  `file_id` is
the freshly generated `uuid.uuid4()` string; the binary is written to
`storage/{file_id}.pdf`, then a metadata row is inserted with the original
filename and the hard-coded owning user id 1. -/
def create_pdf (file_id : String) (file : UploadFile) (db : Store) :
    Resp PDFResponse × Store :=
  let path := "storage/" ++ file_id ++ ".pdf"
  let pdf : PDFRow := ⟨nextPdfId db.pdfs, 1, file.filename, path⟩
  (Resp.ok pdf.toResponse,
    { db with
      pdfs := db.pdfs ++ [pdf]
      blobs := writeBlob db.blobs path file.content })

/-- `GET /pdf/` — `read_pdfs` (main.py lines 164-167): paginated metadata
listing, defaults `skip=0`, `limit=10`. -/
def read_pdfs (skip limit : Option Nat) (db : Store) :
    Resp (List PDFResponse) × Store :=
  (Resp.ok (((db.pdfs.drop (skip.getD 0)).take (limit.getD 10)).map
    PDFRow.toResponse), db)

/-- `GET /pdf/{id}` — `read_pdf` (main.py lines 170-176): metadata of the
first row with the given id, 404 if none. -/
def read_pdf (id : Nat) (db : Store) : Resp PDFResponse × Store :=
  match db.pdfs.find? (fun p => p.id == id) with
  | none => (Resp.clientError 404 "PDF not Found", db)
  | some p => (Resp.ok p.toResponse, db)

/-- `GET /pdf/{id}/download` — `get_pdf` (main.py lines 179-188).  404 when
the id is absent; otherwise a `FileResponse` streaming the bytes at the
stored path with media type `application/pdf` and the original filename.  The
handler never checks that the file still exists, so a missing blob surfaces
as an uncaught I/O error. -/
def get_pdf (id : Nat) (db : Store) : Resp FileDownload × Store :=
  match db.pdfs.find? (fun p => p.id == id) with
  | none => (Resp.clientError 404 "PDF not Found", db)
  | some pdf =>
    match readBlob db.blobs pdf.storage_path with
    | none => (Resp.serverError "FileNotFoundError", db)
    | some bytes => (Resp.ok ⟨bytes, "application/pdf", pdf.fileName⟩, db)

/-- `POST /summary/` — `create_summary` (main.py lines 199-206).  The body is
only comments followed by `return summary_request.summary`; `SummaryRequest`
has no field `summary`, so the attribute access raises an uncaught
`AttributeError`.  Nothing is read from or written to the database or the
blob directory. -/
def create_summary (req : SummaryRequest) (db : Store) :
    Resp SummaryResponse × Store :=
  (Resp.serverError "AttributeError: SummaryRequest has no attribute summary", db)

/-- `GET /summary/{pdf_id}` — `get_summary` (main.py lines 208-212): the body
is only comments, so the handler returns `None` (an empty response) for every
input and touches nothing. -/
def get_summary (pdf_id : Nat) (db : Store) : Option SummaryResponse × Store :=
  (none, db)

/-- The user row with the password field blanked; two stores "differ only in
users' password values" when their user lists agree after `scrub`. -/
def UserRow.scrub (u : UserRow) : UserRow :=
  { u with password := "" }

/-- Every member of a list of naturals is bounded by the `foldr max 0`. -/
theorem le_foldrMax {l : List Nat} {a : Nat} (h : a ∈ l) : a ≤ l.foldr max 0 := by
  induction l with
  | nil => cases h
  | cons b t ih =>
    rcases List.mem_cons.mp h with h | h
    · subst h; exact le_max_left _ _
    · exact le_trans (ih h) (le_max_right _ _)

/-- The id of every existing pdf row is strictly below the freshly assigned
rowid. -/
theorem pdfId_lt_next {pdfs : List PDFRow} {p : PDFRow} (h : p ∈ pdfs) :
    p.id < nextPdfId pdfs :=
  Nat.lt_succ_of_le (le_foldrMax (List.mem_map_of_mem (fun q => q.id) h))

/-- Reading back the path just written returns the bytes just written. -/
theorem readBlob_writeBlob (blobs : List (String × List Nat)) (path : String)
    (content : List Nat) :
    readBlob (writeBlob blobs path content) path = some content := by
  unfold readBlob writeBlob
  rw [List.find?_cons_of_pos _ (by simp)]
  rfl

/-- Replacing the first row with id `i` by a row that itself has id `i` makes
that row the first row `find?` locates under the same id. -/
theorem find?_replaceById (l : List UserRow) (i : Nat) (u' : UserRow)
    (hid : u'.id = i) :
    ∀ u, l.find? (fun v => v.id == i) = some u →
      (replaceById l i u').find? (fun v => v.id == i) = some u' := by
  induction l with
  | nil => intro u hu; simp [List.find?] at hu
  | cons b t ih =>
    intro u hu
    by_cases hb : b.id = i
    · have hrepl : replaceById (b :: t) i u' = u' :: t := by
        simp [replaceById, hb]
      rw [hrepl, List.find?_cons_of_pos _ (by simp [hid])]
    · have hrepl : replaceById (b :: t) i u' = b :: replaceById t i u' := by
        simp [replaceById, hb]
      rw [List.find?_cons_of_neg _ (by simp [hb])] at hu
      rw [hrepl, List.find?_cons_of_neg _ (by simp [hb])]
      exact ih u hu

/-- When the ids of a user list are pairwise distinct, erasing the first row
with a given id is the same as filtering that id out. -/
theorem eraseP_eq_filter_of_id_nodup (l : List UserRow) (i : Nat)
    (h : (l.map (fun u => u.id)).Nodup) :
    l.eraseP (fun v => v.id == i) = l.filter (fun v => v.id != i) := by
  induction l with
  | nil => rfl
  | cons b t ih =>
    rw [List.map_cons, List.nodup_cons] at h
    by_cases hb : b.id = i
    · rw [List.eraseP_cons_of_pos (by simp [hb]),
        List.filter_cons_of_neg (by simp [hb])]
      symm
      rw [List.filter_eq_self]
      intro a ha
      have hai : a.id ≠ i := by
        intro hai
        exact h.1 (hb ▸ List.mem_map.mpr ⟨a, ha, hai⟩)
      simpa using hai
    · rw [List.eraseP_cons_of_neg (by simp [hb]),
        List.filter_cons_of_pos (by simp [hb]), ih h.2]

/-- Scrubbing the password does not change the serialized response. -/
theorem toResponse_scrub (u : UserRow) : u.scrub.toResponse = u.toResponse :=
  rfl

/-- Two user lists that agree after scrubbing passwords yield `find?` results
(under an id predicate) that agree after scrubbing. -/
theorem find?_congr_scrub (i : Nat) :
    ∀ l₁ l₂ : List UserRow, l₁.map UserRow.scrub = l₂.map UserRow.scrub →
      Option.map UserRow.scrub (l₁.find? (fun v => v.id == i)) =
        Option.map UserRow.scrub (l₂.find? (fun v => v.id == i))
  | [], [], _ => rfl
  | [], _ :: _, h => by simp at h
  | _ :: _, [], h => by simp at h
  | a :: t, b :: s, h => by
    simp only [List.map_cons, List.cons.injEq] at h
    have hid : a.id = b.id := by
      have hsc := congrArg UserRow.id h.1
      exact hsc
    by_cases hcase : a.id = i
    · rw [List.find?_cons_of_pos _ (by simp [hcase]),
        List.find?_cons_of_pos _ (by simp [← hid, hcase])]
      simpa using h.1
    · rw [List.find?_cons_of_neg _ (by simp [hcase]),
        List.find?_cons_of_neg _ (by simp [← hid, hcase])]
      exact find?_congr_scrub i t s h.2

/-- Two user lists that agree after scrubbing passwords serialize to the same
response lists. -/
theorem map_toResponse_congr {l₁ l₂ : List UserRow}
    (h : l₁.map UserRow.scrub = l₂.map UserRow.scrub) :
    l₁.map UserRow.toResponse = l₂.map UserRow.toResponse := by
  have key : ∀ l : List UserRow,
      l.map UserRow.toResponse = (l.map UserRow.scrub).map UserRow.toResponse := by
    intro l
    rw [List.map_map]
    rfl
  rw [key l₁, key l₂, h]

/-- Two user lists that agree after scrubbing passwords yield `find?` results
that serialize to the same optional response. -/
theorem resp_of_find_congr (i : Nat) (l₁ l₂ : List UserRow)
    (h : l₁.map UserRow.scrub = l₂.map UserRow.scrub) :
    Option.map UserRow.toResponse (l₁.find? (fun v => v.id == i)) =
      Option.map UserRow.toResponse (l₂.find? (fun v => v.id == i)) := by
  have hf := congrArg (Option.map UserRow.toResponse) (find?_congr_scrub i l₁ l₂ h)
  simpa [Option.map_map] using hf

/-- The response of `read_user` is a function of the serialized `find?`
result. -/
theorem read_user_fst_eq (i : Nat) (db : Store) :
    (read_user i db).1 =
      (match Option.map UserRow.toResponse (db.users.find? (fun v => v.id == i)) with
        | none => Resp.clientError 404 "User not Found"
        | some r => Resp.ok r) := by
  unfold read_user
  cases db.users.find? (fun v => v.id == i) <;> rfl

/-- The response of `delete_user` is a function of the serialized `find?`
result. -/
theorem delete_user_fst_eq (i : Nat) (body : UserUpdate) (db : Store) :
    (delete_user i body db).1 =
      (match Option.map UserRow.toResponse (db.users.find? (fun v => v.id == i)) with
        | none => Resp.clientError 404 "User not Found"
        | some r => Resp.ok r) := by
  unfold delete_user
  cases db.users.find? (fun v => v.id == i) <;> rfl

/-- C1: for every store and every create-user request whose email is already
the email of some user in the store, `create_user` fails with the
client-visible HTTP 400 duplicate-email error and returns the store
unchanged — the prior record keeps all its fields and no row is added. -/
theorem C1_duplicate_email_conflict (db : Store) (req : UserCreate)
    (h : ∃ u ∈ db.users, u.email = req.email) :
    create_user req db = (Resp.clientError 400 "Email already registered", db) := by
  obtain ⟨u, hu, he⟩ := h
  have hany : db.users.any (fun v => v.email == req.email) = true :=
    List.any_eq_true.mpr ⟨u, hu, by simpa using he⟩
  simp [create_user, hany]

/-- Witness for C1 at a concrete store and request. -/
theorem C1_witness :
    create_user ⟨"B", "a@x", "q"⟩ ⟨[⟨1, "A", "a@x", "p"⟩], [], [], []⟩ =
      (Resp.clientError 400 "Email already registered",
        ⟨[⟨1, "A", "a@x", "p"⟩], [], [], []⟩) :=
  C1_duplicate_email_conflict _ _ ⟨⟨1, "A", "a@x", "p"⟩, by simp, rfl⟩

/-- C5: the create-summary stub answers every request with the failed access
of the non-existent `summary` field of the request, leaving the whole store
(in particular the summaries table and the blob directory) unchanged, and
the get-summary stub returns an empty response for every input, also leaving
the store unchanged. -/
theorem C5_summary_stubs (req : SummaryRequest) (pdf_id : Nat) (db : Store) :
    create_summary req db =
      (Resp.serverError "AttributeError: SummaryRequest has no attribute summary", db) ∧
    (create_summary req db).2.summaries = db.summaries ∧
    (create_summary req db).2.blobs = db.blobs ∧
    get_summary pdf_id db = (none, db) :=
  ⟨rfl, rfl, rfl, rfl⟩

/-- C6: `read_user` and `read_pdf` answer 404 when no row with the requested
id is in the store, and return the stored record serialized through the
response contract — with the store unchanged — when one is present. -/
theorem C6_get_by_id (user_id pdf_id : Nat) (db : Store) :
    (db.users.find? (fun u => u.id == user_id) = none →
      read_user user_id db = (Resp.clientError 404 "User not Found", db)) ∧
    (∀ u, db.users.find? (fun u => u.id == user_id) = some u →
      read_user user_id db = (Resp.ok u.toResponse, db)) ∧
    (db.pdfs.find? (fun p => p.id == pdf_id) = none →
      read_pdf pdf_id db = (Resp.clientError 404 "PDF not Found", db)) ∧
    (∀ p, db.pdfs.find? (fun p => p.id == pdf_id) = some p →
      read_pdf pdf_id db = (Resp.ok p.toResponse, db)) := by
  refine ⟨fun h => ?_, fun u hu => ?_, fun h => ?_, fun p hp => ?_⟩
  · simp [read_user, h]
  · simp [read_user, hu]
  · simp [read_pdf, h]
  · simp [read_pdf, hp]

/-- Witness for C6: a present user id and an absent pdf id on a concrete
store. -/
theorem C6_witness :
    read_user 1 ⟨[⟨1, "A", "a@x", "p"⟩], [], [], []⟩ =
      (Resp.ok ⟨1, "A", "a@x"⟩, ⟨[⟨1, "A", "a@x", "p"⟩], [], [], []⟩) ∧
    read_pdf 7 ⟨[⟨1, "A", "a@x", "p"⟩], [], [], []⟩ =
      (Resp.clientError 404 "PDF not Found", ⟨[⟨1, "A", "a@x", "p"⟩], [], [], []⟩) :=
  ⟨(C6_get_by_id 1 7 ⟨[⟨1, "A", "a@x", "p"⟩], [], [], []⟩).2.1 ⟨1, "A", "a@x", "p"⟩ rfl,
    (C6_get_by_id 1 7 ⟨[⟨1, "A", "a@x", "p"⟩], [], [], []⟩).2.2.1 rfl⟩

/-- C7: for every upload, the persisted metadata row has owning user id 1,
the client-supplied filename, and storage path `storage/{file_id}.pdf` built
from the freshly generated identifier; the row is appended to the pdfs table
and echoed through the response contract. -/
theorem C7_upload_metadata (file_id : String) (file : UploadFile) (db : Store) :
    ∃ row : PDFRow,
      (create_pdf file_id file db).2.pdfs = db.pdfs ++ [row] ∧
      row.user_id = 1 ∧
      row.fileName = file.filename ∧
      row.storage_path = "storage/" ++ file_id ++ ".pdf" ∧
      (create_pdf file_id file db).1 = Resp.ok ⟨row.id, file.filename⟩ :=
  ⟨⟨nextPdfId db.pdfs, 1, file.filename, "storage/" ++ file_id ++ ".pdf"⟩,
    rfl, rfl, rfl, rfl, rfl⟩

/-- C8: the list endpoints default to `skip = 0`, `limit = 10` when the query
parameters are omitted; a page holds at most `limit` records taken after the
first `skip` records; no upper bound is imposed on `limit` (any limit at
least the remaining row count returns the whole remainder); and listing an
empty table yields an empty list rather than an error. -/
theorem C8_pagination (db : Store) (skip limit : Nat) :
    read_users none none db = read_users (some 0) (some 10) db ∧
    read_pdfs none none db = read_pdfs (some 0) (some 10) db ∧
    (read_users (some skip) (some limit) db).1 =
      Resp.ok (((db.users.map UserRow.toResponse).drop skip).take limit) ∧
    (((db.users.map UserRow.toResponse).drop skip).take limit).length ≤ limit ∧
    (read_pdfs (some skip) (some limit) db).1 =
      Resp.ok (((db.pdfs.map PDFRow.toResponse).drop skip).take limit) ∧
    (((db.pdfs.map PDFRow.toResponse).drop skip).take limit).length ≤ limit ∧
    (db.users.length - skip ≤ limit →
      (read_users (some skip) (some limit) db).1 =
        Resp.ok ((db.users.map UserRow.toResponse).drop skip)) ∧
    (db.pdfs.length - skip ≤ limit →
      (read_pdfs (some skip) (some limit) db).1 =
        Resp.ok ((db.pdfs.map PDFRow.toResponse).drop skip)) ∧
    (db.users = [] → (read_users (some skip) (some limit) db).1 = Resp.ok []) ∧
    (db.pdfs = [] → (read_pdfs (some skip) (some limit) db).1 = Resp.ok []) := by
  refine ⟨rfl, rfl, ?_, List.length_take_le _ _, ?_, List.length_take_le _ _,
    fun h => ?_, fun h => ?_, fun h => ?_, fun h => ?_⟩
  · simp [read_users]
  · simp [read_pdfs]
  · have hlen : ((db.users.map UserRow.toResponse).drop skip).length ≤ limit := by
      simpa using h
    simp [read_users, List.take_of_length_le hlen]
  · have hlen : ((db.pdfs.map PDFRow.toResponse).drop skip).length ≤ limit := by
      simpa using h
    simp [read_pdfs, List.take_of_length_le hlen]
  · simp [read_users, h]
  · simp [read_pdfs, h]

/-- Witness for C8: a store with two users and two pdfs listed with
`skip = 1` and a limit beyond both table sizes, and an empty store. -/
theorem C8_witness :
    (read_users (some 1) (some 5)
        ⟨[⟨1, "A", "a@x", "p"⟩, ⟨2, "B", "b@x", "q"⟩],
          [⟨1, 1, "a.pdf", "storage/x.pdf"⟩, ⟨2, 1, "b.pdf", "storage/y.pdf"⟩],
          [], []⟩).1 =
      Resp.ok [⟨2, "B", "b@x"⟩] ∧
    (read_pdfs (some 1) (some 5)
        ⟨[⟨1, "A", "a@x", "p"⟩, ⟨2, "B", "b@x", "q"⟩],
          [⟨1, 1, "a.pdf", "storage/x.pdf"⟩, ⟨2, 1, "b.pdf", "storage/y.pdf"⟩],
          [], []⟩).1 =
      Resp.ok [⟨2, "b.pdf"⟩] ∧
    (read_users (some 0) (some 10) ⟨[], [], [], []⟩).1 = Resp.ok [] ∧
    (read_pdfs (some 0) (some 10) ⟨[], [], [], []⟩).1 = Resp.ok [] :=
  ⟨((C8_pagination
      ⟨[⟨1, "A", "a@x", "p"⟩, ⟨2, "B", "b@x", "q"⟩],
        [⟨1, 1, "a.pdf", "storage/x.pdf"⟩, ⟨2, 1, "b.pdf", "storage/y.pdf"⟩],
        [], []⟩ 1 5).2.2.2.2.2.2.1 (by decide)).trans (by decide),
    ((C8_pagination
      ⟨[⟨1, "A", "a@x", "p"⟩, ⟨2, "B", "b@x", "q"⟩],
        [⟨1, 1, "a.pdf", "storage/x.pdf"⟩, ⟨2, 1, "b.pdf", "storage/y.pdf"⟩],
        [], []⟩ 1 5).2.2.2.2.2.2.2.1 (by decide)).trans (by decide),
    (C8_pagination ⟨[], [], [], []⟩ 0 10).2.2.2.2.2.2.2.2.1 rfl,
    (C8_pagination ⟨[], [], [], []⟩ 0 10).2.2.2.2.2.2.2.2.2 rfl⟩

/-- C9: the delete-user endpoint declares a request body of the update shape
that it never reads: for every store, id, and any two bodies, `delete_user`
produces the same response and the same resulting store. -/
theorem C9_delete_body_unused (db : Store) (user_id : Nat) (b₁ b₂ : UserUpdate) :
    delete_user user_id b₁ db = delete_user user_id b₂ db :=
  rfl

/-- C2 (amended): for every user present in the store and every update
request, each unset field keeps its prior value, each provided field is set,
and the updated record is returned — provided the resulting email does not
collide with another user's email (otherwise the UNIQUE constraint raises an
uncaught IntegrityError); for an absent id the operation fails with 404 and
changes no row. -/
theorem C2_partial_update (db : Store) (user_id : Nat) (req : UserUpdate) :
    (db.users.find? (fun v => v.id == user_id) = none →
      update_user user_id req db = (Resp.clientError 404 "User not Found", db)) ∧
    (∀ u, db.users.find? (fun v => v.id == user_id) = some u →
      (∀ v ∈ db.users, v.id ≠ u.id → v.email ≠ req.email.getD u.email) →
      (update_user user_id req db).1 =
        Resp.ok ⟨u.id, req.name.getD u.name, req.email.getD u.email⟩ ∧
      (update_user user_id req db).2.users.find? (fun v => v.id == user_id) =
        some ⟨u.id, req.name.getD u.name, req.email.getD u.email,
          req.password.getD u.password⟩) := by
  refine ⟨fun h => ?_, fun u hu hnc => ?_⟩
  · simp [update_user, h]
  · have hany : db.users.any
        (fun v => v.id != u.id && v.email == req.email.getD u.email) = false := by
      apply Bool.eq_false_iff.mpr
      intro hcon
      obtain ⟨v, hv, hp⟩ := List.any_eq_true.mp hcon
      simp only [Bool.and_eq_true, bne_iff_ne, beq_iff_eq] at hp
      exact hnc v hv hp.1 hp.2
    have huid : u.id = user_id := by
      have hp := List.find?_some hu
      simpa using hp
    constructor
    · simp [update_user, hu, hany, applyUpdate, UserRow.toResponse]
    · have husers : (update_user user_id req db).2.users =
          replaceById db.users user_id (applyUpdate u req) := by
        simp [update_user, hu, hany, applyUpdate]
      rw [husers]
      exact find?_replaceById db.users user_id (applyUpdate u req)
        (by simp [applyUpdate, huid]) u hu

/-- Witness for C2 at a concrete store: updating only the name keeps the
email, and the stored row keeps its password. -/
theorem C2_witness :
    (update_user 1 ⟨some "Ann", none, none⟩ ⟨[⟨1, "A", "a@x", "p"⟩], [], [], []⟩).1 =
      Resp.ok ⟨1, "Ann", "a@x"⟩ ∧
    (update_user 1 ⟨some "Ann", none, none⟩
        ⟨[⟨1, "A", "a@x", "p"⟩], [], [], []⟩).2.users.find? (fun v => v.id == 1) =
      some ⟨1, "Ann", "a@x", "p"⟩ := by
  have h := (C2_partial_update ⟨[⟨1, "A", "a@x", "p"⟩], [], [], []⟩ 1
      ⟨some "Ann", none, none⟩).2 ⟨1, "A", "a@x", "p"⟩ (by decide) (by decide)
  exact ⟨h.1.trans (by decide), h.2.trans (by decide)⟩

/-- Counterexample to C2 as stated: in a store with users 1 and 2 holding
emails `a@x` and `b@x`, updating user 2's email to `a@x` does not return the
updated record — the UNIQUE constraint on email fires at commit and the
uncaught IntegrityError surfaces as a server error, with the store left
unchanged. -/
theorem C2_counterexample :
    (update_user 2 ⟨none, some "a@x", none⟩
        ⟨[⟨1, "A", "a@x", "p"⟩, ⟨2, "B", "b@x", "q"⟩], [], [], []⟩).1 ≠
      Resp.ok ⟨2, "B", "a@x"⟩ ∧
    (update_user 2 ⟨none, some "a@x", none⟩
        ⟨[⟨1, "A", "a@x", "p"⟩, ⟨2, "B", "b@x", "q"⟩], [], [], []⟩).1 =
      Resp.serverError "IntegrityError: UNIQUE constraint failed: users.email" ∧
    (update_user 2 ⟨none, some "a@x", none⟩
        ⟨[⟨1, "A", "a@x", "p"⟩, ⟨2, "B", "b@x", "q"⟩], [], [], []⟩).2 =
      ⟨[⟨1, "A", "a@x", "p"⟩, ⟨2, "B", "b@x", "q"⟩], [], [], []⟩ := by
  decide

/-- C3: uploading a file and then downloading by the id the upload returned
yields byte-identical content, served with media type `application/pdf` and
the original client-supplied filename. -/
theorem C3_upload_download_roundtrip (file_id : String) (file : UploadFile)
    (db : Store) :
    ∀ i fn, (create_pdf file_id file db).1 = Resp.ok ⟨i, fn⟩ →
      (get_pdf i (create_pdf file_id file db).2).1 =
        Resp.ok ⟨file.content, "application/pdf", file.filename⟩ := by
  intro i fn h
  have hi : i = nextPdfId db.pdfs := by
    simp [create_pdf, PDFRow.toResponse] at h
    exact h.1.symm
  subst hi
  have hnone : db.pdfs.find? (fun p => p.id == nextPdfId db.pdfs) = none :=
    List.find?_eq_none.mpr
      (fun p hp => by simpa using Nat.ne_of_lt (pdfId_lt_next hp))
  simp only [get_pdf, create_pdf]
  rw [List.find?_append, hnone]
  simp [readBlob_writeBlob, List.find?]

/-- Witness for C3: a concrete upload into the empty store, downloaded back
by the returned id 1. -/
theorem C3_witness :
    (get_pdf 1 (create_pdf "u" ⟨"doc.pdf", [1, 2, 3]⟩ ⟨[], [], [], []⟩).2).1 =
      Resp.ok ⟨[1, 2, 3], "application/pdf", "doc.pdf"⟩ :=
  C3_upload_download_roundtrip "u" ⟨"doc.pdf", [1, 2, 3]⟩ ⟨[], [], [], []⟩ 1
    "doc.pdf" (by decide)

/-- C4: deleting an absent user id fails with 404 and affects no row; for a
present id (with the primary-key ids pairwise distinct), exactly that user's
row is removed and the deleted record's former field values are returned. -/
theorem C4_delete_user (db : Store) (user_id : Nat) (req : UserUpdate)
    (hids : (db.users.map (fun u => u.id)).Nodup) :
    (db.users.find? (fun u => u.id == user_id) = none →
      delete_user user_id req db = (Resp.clientError 404 "User not Found", db)) ∧
    (∀ u, db.users.find? (fun u => u.id == user_id) = some u →
      (delete_user user_id req db).1 = Resp.ok ⟨u.id, u.name, u.email⟩ ∧
      (delete_user user_id req db).2 =
        { db with users := db.users.filter (fun v => v.id != user_id) }) := by
  refine ⟨fun h => ?_, fun u hu => ?_⟩
  · simp [delete_user, h]
  · refine ⟨by simp [delete_user, hu, UserRow.toResponse], ?_⟩
    simp [delete_user, hu, eraseP_eq_filter_of_id_nodup db.users user_id hids]

/-- Witness for C4: deleting user 1 from a two-user store returns its former
representation and leaves exactly user 2. -/
theorem C4_witness :
    (delete_user 1 ⟨none, none, none⟩
        ⟨[⟨1, "A", "a@x", "p"⟩, ⟨2, "B", "b@x", "q"⟩], [], [], []⟩).1 =
      Resp.ok ⟨1, "A", "a@x"⟩ ∧
    (delete_user 1 ⟨none, none, none⟩
        ⟨[⟨1, "A", "a@x", "p"⟩, ⟨2, "B", "b@x", "q"⟩], [], [], []⟩).2 =
      ⟨[⟨2, "B", "b@x", "q"⟩], [], [], []⟩ := by
  have h := (C4_delete_user ⟨[⟨1, "A", "a@x", "p"⟩, ⟨2, "B", "b@x", "q"⟩], [], [], []⟩
      1 ⟨none, none, none⟩ (by decide)).2 ⟨1, "A", "a@x", "p"⟩ (by decide)
  exact ⟨h.1, h.2.trans (by decide)⟩

/-- C10: the user response contract serializes only id, name and email, so
for any two stores whose user tables agree except possibly on password
values, `read_user`, `read_users` and `delete_user` return identical
responses. -/
theorem C10_password_never_serialized (db₁ db₂ : Store)
    (h : db₁.users.map UserRow.scrub = db₂.users.map UserRow.scrub)
    (user_id : Nat) (skip limit : Option Nat) (body : UserUpdate) :
    (read_user user_id db₁).1 = (read_user user_id db₂).1 ∧
    (read_users skip limit db₁).1 = (read_users skip limit db₂).1 ∧
    (delete_user user_id body db₁).1 = (delete_user user_id body db₂).1 := by
  refine ⟨?_, ?_, ?_⟩
  · rw [read_user_fst_eq, read_user_fst_eq,
      resp_of_find_congr user_id db₁.users db₂.users h]
  · simp only [read_users, List.map_take, List.map_drop]
    rw [map_toResponse_congr h]
  · rw [delete_user_fst_eq, delete_user_fst_eq,
      resp_of_find_congr user_id db₁.users db₂.users h]

/-- Witness for C10: two one-user stores that differ only in the stored
password produce identical responses on all three endpoints. -/
theorem C10_witness :
    (read_user 1 ⟨[⟨1, "A", "a@x", "p"⟩], [], [], []⟩).1 =
      (read_user 1 ⟨[⟨1, "A", "a@x", "longsecret"⟩], [], [], []⟩).1 ∧
    (read_users none none ⟨[⟨1, "A", "a@x", "p"⟩], [], [], []⟩).1 =
      (read_users none none ⟨[⟨1, "A", "a@x", "longsecret"⟩], [], [], []⟩).1 ∧
    (delete_user 1 ⟨none, none, none⟩ ⟨[⟨1, "A", "a@x", "p"⟩], [], [], []⟩).1 =
      (delete_user 1 ⟨none, none, none⟩
        ⟨[⟨1, "A", "a@x", "longsecret"⟩], [], [], []⟩).1 :=
  C10_password_never_serialized ⟨[⟨1, "A", "a@x", "p"⟩], [], [], []⟩
    ⟨[⟨1, "A", "a@x", "longsecret"⟩], [], [], []⟩ (by decide) 1 none none
    ⟨none, none, none⟩

end ResearchMate
